import Mathlib

/-!
Verification of the delta-classification layer of `fbchat`
(`fbchat/_events/_delta_class.py`): the dispatcher `parse_delta` and the
per-kind event parsers, embedded shallowly over a JSON-like payload type.
Helpers that live outside the given sources (`_events/_common.py`,
`_util`, `_threads`, `_models`, `_delta_type`) are modelled from the
specification; each such definition says so in its doc comment.
-/

/-- Payload values: Python dict/list/str/int/None data as received from the
transport. Mappings are association lists keyed by strings. -/
inductive JValue where
  | null : JValue
  | str : String → JValue
  | num : Int → JValue
  | list : List JValue → JValue
  | obj : List (String × JValue) → JValue

/-- Python exception classes that the parsing layer can raise. -/
inductive PyError where
  | keyError : String → PyError
  | valueError : String → PyError
  | indexError : PyError
  | typeError : PyError
deriving DecidableEq

/-- Dictionary subscript `data[k]`: `KeyError` when the key is missing,
`TypeError` when the value is not a mapping. -/
def JValue.getKey : JValue → String → Except PyError JValue
  | .obj kvs, k =>
    match kvs.lookup k with
    | some v => .ok v
    | none => .error (.keyError k)
  | _, _ => .error .typeError

/-- Python `k in data` on a mapping. -/
def JValue.hasKey : JValue → String → Except PyError Bool
  | .obj kvs, k => .ok (kvs.lookup k).isSome
  | _, _ => .error .typeError

/-- Iterating a payload value as a sequence; only list payloads are
iterated by this layer. -/
def JValue.asList : JValue → Except PyError (List JValue)
  | .list xs => .ok xs
  | _ => .error .typeError

/-- Python truthiness of a payload value, as used by `x or None`. -/
def JValue.truthy : JValue → Bool
  | .null => false
  | .str s => s ≠ ""
  | .num n => n ≠ 0
  | .list xs => !xs.isEmpty
  | .obj kvs => !kvs.isEmpty

/-- Python `int(x)` on a payload value: identity on integers, decimal
parsing on strings (`ValueError` on a non-numeric string), `TypeError`
otherwise. -/
def pyInt : JValue → Except PyError Int
  | .num n => .ok n
  | .str s =>
    match s.toInt? with
    | some n => .ok n
    | none => .error (.valueError s)
  | _ => .error .typeError

/-- Python `xs[i]` on a list: `IndexError` out of range. -/
def pyIndex (xs : List JValue) (i : Nat) : Except PyError JValue :=
  match xs.get? i with
  | some v => .ok v
  | none => .error .indexError

/-- List comprehension `[f x for x in xs]` over a fallible body: evaluated
left to right, the first raised error propagates. -/
def mapExcept (f : JValue → Except PyError α) : List JValue → Except PyError (List α)
  | [] => .ok []
  | x :: xs => do
    let y ← f x
    let ys ← mapExcept f xs
    pure (y :: ys)

/-- Modelled from the spec: a session handle is immutable and identifies
the logged-in user; only its own user id is relevant to this layer
(`Session` itself is not under `src/`). -/
structure Session where
  userId : JValue

/-- Thread/user reference kinds: one-to-one user thread or group thread. -/
inductive ThreadKind where
  | user : ThreadKind
  | group : ThreadKind
deriving DecidableEq

/-- Modelled from the spec: identity-only thread/user handles built by the
`_threads.User` / `_threads.Group` factories (not under `src/`) — an id
plus a back-reference to the owning session, no fetched data. -/
structure ThreadRef where
  session : Session
  kind : ThreadKind
  id : JValue

/-- Modelled from the spec: `session.user`, the session's own user handle
(`Session.user` is not under `src/`). -/
def Session.user (s : Session) : ThreadRef :=
  { session := s, kind := .user, id := s.userId }

/-- Modelled from the spec: identity-only message handle built by the
`_models.Message` factory (not under `src/`). -/
structure MessageRef where
  thread : ThreadRef
  id : JValue

/-- Modelled from the spec: `millis_to_timestamp(ms)` from `_util` (not
under `src/`); the conversion is exact at millisecond granularity, so the
datetime is represented by its millisecond epoch value. -/
structure DateTime where
  millis : Int

def millis_to_datetime (ms : Int) : DateTime :=
  { millis := ms }

/-- Modelled from the spec: `_models.ThreadLocation._parse` (not under
`src/`), an opaque factory `parse_thread_location(raw)`. -/
structure ThreadLocation where
  raw : JValue

def ThreadLocation._parse (v : JValue) : ThreadLocation :=
  { raw := v }

/-- Modelled from the spec: `parse_message_data(thread, raw, author_id,
created_at)`, the external message-data factory `_models.MessageData._from_pull`
(not under `src/`); it is opaque to this layer, which only passes through
the resolved author id and timestamp. -/
structure MessageData where
  thread : ThreadRef
  raw : JValue
  authorId : JValue
  createdAt : DateTime

/-- The event model of `_delta_class.py` as a closed sum. `adminTextMessage`
stands for whatever `_delta_type.parse_admin_message` returns (out of the
given sources). -/
inductive Event where
  | participantsAdded (author : ThreadRef) (thread : ThreadRef)
      (added : List ThreadRef) (at_ : Option DateTime)
  | participantRemoved (author : ThreadRef) (thread : ThreadRef)
      (removed : ThreadRef) (at_ : Option DateTime)
  | titleSet (author : ThreadRef) (thread : ThreadRef)
      (title : Option JValue) (at_ : Option DateTime)
  | unfetchedThreadEvent (thread : ThreadRef) (message : Option MessageRef)
  | messagesDelivered (author : ThreadRef) (thread : ThreadRef)
      (messages : List MessageRef) (at_ : DateTime)
  | threadsRead (author : ThreadRef) (threads : List ThreadRef) (at_ : DateTime)
  | messageEvent (author : ThreadRef) (thread : ThreadRef)
      (message : MessageData) (at_ : DateTime)
  | threadFolder (thread : ThreadRef) (folder : ThreadLocation)
  | unknownEvent (source : String) (data : JValue)
  | adminTextMessage (data : JValue)

/-- Author of an event, when the variant carries one. -/
def Event.author? : Event → Option ThreadRef
  | .participantsAdded a _ _ _ => some a
  | .participantRemoved a _ _ _ => some a
  | .titleSet a _ _ _ => some a
  | .unfetchedThreadEvent _ _ => none
  | .messagesDelivered a _ _ _ => some a
  | .threadsRead a _ _ => some a
  | .messageEvent a _ _ _ => some a
  | .threadFolder _ _ => none
  | .unknownEvent _ _ => none
  | .adminTextMessage _ => none

/-- Timestamp of an event, when the variant carries one (doubly optional
variants flattened: `none` also when the stored timestamp is absent). -/
def Event.at? : Event → Option DateTime
  | .participantsAdded _ _ _ t => t
  | .participantRemoved _ _ _ t => t
  | .titleSet _ _ _ t => t
  | .unfetchedThreadEvent _ _ => none
  | .messagesDelivered _ _ _ t => some t
  | .threadsRead _ _ t => some t
  | .messageEvent _ _ _ t => some t
  | .threadFolder _ _ => none
  | .unknownEvent _ _ => none
  | .adminTextMessage _ => none

/-- Modelled from the spec: `get_thread(session, data) -> thread` — the
`ThreadEvent._get_thread` helper from `_events/_common.py` (not under
`src/`): resolves a thread handle purely from the thread-key structure,
group id present → group thread, else one-to-one with the other-user id.
The spec does not name the key fields; `threadFbId` / `otherUserFbId`
stand for the group id and other-user id it describes. -/
def ThreadEvent._get_thread (session : Session) (data : JValue) : Except PyError ThreadRef := do
  let key ← data.getKey "threadKey"
  let isGroup ← key.hasKey "threadFbId"
  if isGroup then do
    let gid ← key.getKey "threadFbId"
    pure { session := session, kind := .group, id := gid }
  else do
    let uid ← key.getKey "otherUserFbId"
    pure { session := session, kind := .user, id := uid }

/-- Modelled from the spec: `parse_metadata(session, data) -> (author,
thread, at)` — `ThreadEvent._parse_metadata` from `_events/_common.py`
(not under `src/`): reads the nested `messageMetadata` envelope, builds
the author from its actor id field, resolves the thread via the
thread-key lookup, and parses a millisecond timestamp field. -/
def ThreadEvent._parse_metadata (session : Session) (data : JValue) :
    Except PyError (ThreadRef × ThreadRef × DateTime) := do
  let metadata ← data.getKey "messageMetadata"
  let aid ← metadata.getKey "actorFbId"
  let author : ThreadRef := { session := session, kind := .user, id := aid }
  let thread ← ThreadEvent._get_thread session metadata
  let ts ← metadata.getKey "timestamp"
  let n ← pyInt ts
  pure (author, thread, millis_to_datetime n)

/-- Modelled from the spec: `parse_fetch(session, data) -> (author, at)` —
`ThreadEvent._parse_fetch` from `_events/_common.py` (not under `src/`):
reads the flatter fetch-result shape, whose author id and timestamp field
names differ from the live-stream shape; the spec does not name them, so
`message_sender`/`id` and `timestamp_precise` stand for them here. -/
def ThreadEvent._parse_fetch (session : Session) (data : JValue) :
    Except PyError (ThreadRef × DateTime) := do
  let sender ← data.getKey "message_sender"
  let aid ← sender.getKey "id"
  let author : ThreadRef := { session := session, kind := .user, id := aid }
  let ts ← data.getKey "timestamp_precise"
  let n ← pyInt ts
  pure (author, millis_to_datetime n)

/-- Modelled from the spec: `_delta_type.parse_admin_message` (not among
the given sources); the spec only says the `AdminTextMessage` tag
dispatches to it, so its result is kept opaque. -/
def parse_admin_message (_session : Session) (data : JValue) : Except PyError Event :=
  .ok (.adminTextMessage data)

/-- Embeds `ParticipantsAdded._parse` (`_delta_class.py` lines 23-31). -/
def ParticipantsAdded._parse (session : Session) (data : JValue) : Except PyError Event := do
  let (author, thread, at_) ← ThreadEvent._parse_metadata session data
  let addedRaw ← data.getKey "addedParticipants"
  let xs ← addedRaw.asList
  let added ← mapExcept (fun x => do
    let uid ← x.getKey "userFbId"
    pure { session := session, kind := ThreadKind.user, id := uid : ThreadRef }) xs
  pure (.participantsAdded author thread added (some at_))

/-- Embeds `ParticipantsAdded._from_send` (`_delta_class.py` lines 33-40). -/
def ParticipantsAdded._from_send (thread : ThreadRef) (added_ids : List JValue) : Event :=
  .participantsAdded thread.session.user thread
    (added_ids.map fun id_ => { session := thread.session, kind := .user, id := id_ })
    none

/-- Embeds `ParticipantsAdded._from_fetch` (`_delta_class.py` lines 42-49). -/
def ParticipantsAdded._from_fetch (thread : ThreadRef) (data : JValue) : Except PyError Event := do
  let (author, at_) ← ThreadEvent._parse_fetch thread.session data
  let addedRaw ← data.getKey "participants_added"
  let xs ← addedRaw.asList
  let added ← mapExcept (fun x => do
    let uid ← x.getKey "id"
    pure { session := thread.session, kind := ThreadKind.user, id := uid : ThreadRef }) xs
  pure (.participantsAdded author thread added (some at_))

/-- Embeds `ParticipantRemoved._parse` (`_delta_class.py` lines 64-68). -/
def ParticipantRemoved._parse (session : Session) (data : JValue) : Except PyError Event := do
  let (author, thread, at_) ← ThreadEvent._parse_metadata session data
  let rid ← data.getKey "leftParticipantFbId"
  let removed : ThreadRef := { session := session, kind := .user, id := rid }
  pure (.participantRemoved author thread removed (some at_))

/-- Embeds `ParticipantRemoved._from_send` (`_delta_class.py` lines 70-77). -/
def ParticipantRemoved._from_send (thread : ThreadRef) (removed_id : JValue) : Event :=
  .participantRemoved thread.session.user thread
    { session := thread.session, kind := .user, id := removed_id }
    none

/-- Embeds `ParticipantRemoved._from_fetch` (`_delta_class.py` lines 79-85):
`removed` is built from `data["participants_removed"][0]["id"]`. -/
def ParticipantRemoved._from_fetch (thread : ThreadRef) (data : JValue) : Except PyError Event := do
  let (author, at_) ← ThreadEvent._parse_fetch thread.session data
  let prRaw ← data.getKey "participants_removed"
  let xs ← prRaw.asList
  let first ← pyIndex xs 0
  let rid ← first.getKey "id"
  let removed : ThreadRef := { session := thread.session, kind := .user, id := rid }
  pure (.participantRemoved author thread removed (some at_))

/-- Embeds `TitleSet._parse` (`_delta_class.py` lines 98-102):
`title = data["name"] or None`. -/
def TitleSet._parse (session : Session) (data : JValue) : Except PyError Event := do
  let (author, thread, at_) ← ThreadEvent._parse_metadata session data
  let nameV ← data.getKey "name"
  let title := if nameV.truthy then some nameV else none
  pure (.titleSet author thread title (some at_))

/-- Embeds `TitleSet._from_fetch` (`_delta_class.py` lines 104-108):
`title = data["thread_name"] or None`. -/
def TitleSet._from_fetch (thread : ThreadRef) (data : JValue) : Except PyError Event := do
  let (author, at_) ← ThreadEvent._parse_fetch thread.session data
  let nameV ← data.getKey "thread_name"
  let title := if nameV.truthy then some nameV else none
  pure (.titleSet author thread title (some at_))

/-- Embeds `UnfetchedThreadEvent._parse` (`_delta_class.py` lines 128-134). -/
def UnfetchedThreadEvent._parse (session : Session) (data : JValue) : Except PyError Event := do
  let thread ← ThreadEvent._get_thread session data
  let hasMsg ← data.hasKey "messageId"
  let message ← if hasMsg then do
      let mid ← data.getKey "messageId"
      pure (some { thread := thread, id := mid : MessageRef })
    else
      pure none
  pure (.unfetchedThreadEvent thread message)

/-- Embeds `MessagesDelivered._parse` (`_delta_class.py` lines 146-155):
the author falls back to the thread itself when `actorFbId` is absent. -/
def MessagesDelivered._parse (session : Session) (data : JValue) : Except PyError Event := do
  let thread ← ThreadEvent._get_thread session data
  let hasActor ← data.hasKey "actorFbId"
  let author ← if hasActor then do
      let aid ← data.getKey "actorFbId"
      pure { session := session, kind := ThreadKind.user, id := aid : ThreadRef }
    else
      pure thread
  let midsRaw ← data.getKey "messageIds"
  let mids ← midsRaw.asList
  let messages := mids.map fun x => { thread := thread, id := x : MessageRef }
  let ts ← data.getKey "deliveredWatermarkTimestampMs"
  let n ← pyInt ts
  pure (.messagesDelivered author thread messages (millis_to_datetime n))

/-- Embeds `ThreadsRead._parse_read_receipt` (`_delta_class.py` lines
169-174): explicit actor, single thread. -/
def ThreadsRead._parse_read_receipt (session : Session) (data : JValue) : Except PyError Event := do
  let aid ← data.getKey "actorFbId"
  let author : ThreadRef := { session := session, kind := .user, id := aid }
  let thread ← ThreadEvent._get_thread session data
  let ts ← data.getKey "actionTimestampMs"
  let n ← pyInt ts
  pure (.threadsRead author [thread] (millis_to_datetime n))

/-- Embeds `ThreadsRead._parse` (`_delta_class.py` lines 176-182): bulk
mark-read, implicit author = the session's own user, one thread per
entry of `data["threadKeys"]`. -/
def ThreadsRead._parse (session : Session) (data : JValue) : Except PyError Event := do
  let keysRaw ← data.getKey "threadKeys"
  let ks ← keysRaw.asList
  let threads ← mapExcept
    (fun x => ThreadEvent._get_thread session (.obj [("threadKey", x)])) ks
  let ts ← data.getKey "actionTimestamp"
  let n ← pyInt ts
  pure (.threadsRead session.user threads (millis_to_datetime n))

/-- Embeds `MessageEvent._parse` (`_delta_class.py` lines 194-200). -/
def MessageEvent._parse (session : Session) (data : JValue) : Except PyError Event := do
  let (author, thread, at_) ← ThreadEvent._parse_metadata session data
  let message : MessageData :=
    { thread := thread, raw := data, authorId := author.id, createdAt := at_ }
  pure (.messageEvent author thread message at_)

/-- Embeds `ThreadFolder._parse` (`_delta_class.py` lines 218-222). -/
def ThreadFolder._parse (session : Session) (data : JValue) : Except PyError Event := do
  let thread ← ThreadEvent._get_thread session data
  let folderV ← data.getKey "folder"
  pure (.threadFolder thread (ThreadLocation._parse folderV))

/-- Python `class_ == "Tag"`: string comparison; any non-string payload
value compares unequal to a string literal. -/
def tagEq : JValue → String → Bool
  | .str s, t => s == t
  | _, _ => false

/-- Embeds `parse_delta` (`_delta_class.py` lines 225-257): dispatch on
`data["class"]` through the source's `elif` chain, with `None` modelled
as `Option.none`, raised exceptions as `Except.error`, and the final
fallback producing `UnknownEvent`. A non-string `class` value compares
unequal to every tag in Python, so it reaches the fallback exactly like
an unrecognized string tag. -/
def parse_delta (session : Session) (data : JValue) : Except PyError (Option Event) := do
  let class_ ← data.getKey "class"
  if tagEq class_ "AdminTextMessage" then do
    let e ← parse_admin_message session data
    pure (some e)
  else if tagEq class_ "ParticipantsAddedToGroupThread" then do
    let e ← ParticipantsAdded._parse session data
    pure (some e)
  else if tagEq class_ "ParticipantLeftGroupThread" then do
    let e ← ParticipantRemoved._parse session data
    pure (some e)
  else if tagEq class_ "MarkFolderSeen" then do
    let foldersRaw ← data.getKey "folders"
    let fs ← foldersRaw.asList
    let _folders := fs.map ThreadLocation._parse
    let ts ← data.getKey "timestamp"
    let _at ← pyInt ts
    pure none
  else if tagEq class_ "ThreadName" then do
    let e ← TitleSet._parse session data
    pure (some e)
  else if tagEq class_ "ForcedFetch" then do
    let e ← UnfetchedThreadEvent._parse session data
    pure (some e)
  else if tagEq class_ "DeliveryReceipt" then do
    let e ← MessagesDelivered._parse session data
    pure (some e)
  else if tagEq class_ "ReadReceipt" then do
    let e ← ThreadsRead._parse_read_receipt session data
    pure (some e)
  else if tagEq class_ "MarkRead" then do
    let e ← ThreadsRead._parse session data
    pure (some e)
  else if tagEq class_ "NoOp" then
    pure none
  else if tagEq class_ "NewMessage" then do
    let e ← MessageEvent._parse session data
    pure (some e)
  else if tagEq class_ "ThreadFolder" then do
    let e ← ThreadFolder._parse session data
    pure (some e)
  else if tagEq class_ "ClientPayload" then
    .error (.valueError "This is implemented in `parse_events`")
  else
    pure (some (.unknownEvent "Delta class" data))

/-- The thirteen class tags that `parse_delta` handles explicitly. -/
def handledTags : List String :=
  ["AdminTextMessage", "ParticipantsAddedToGroupThread",
   "ParticipantLeftGroupThread", "MarkFolderSeen", "ThreadName",
   "ForcedFetch", "DeliveryReceipt", "ReadReceipt", "MarkRead", "NoOp",
   "NewMessage", "ThreadFolder", "ClientPayload"]

/-- Association of each recognized class tag with the per-kind parser its
`parse_delta` branch delegates to (`_delta_class.py` lines 227-254);
`AdminTextMessage` (delegating outside the given sources), the inline
`MarkFolderSeen` branch and the payload-free `NoOp`/`ClientPayload`
branches are not parser delegations. -/
def branchParsers : List (String × (Session → JValue → Except PyError Event)) :=
  [("ParticipantsAddedToGroupThread", ParticipantsAdded._parse),
   ("ParticipantLeftGroupThread", ParticipantRemoved._parse),
   ("ThreadName", TitleSet._parse),
   ("ForcedFetch", UnfetchedThreadEvent._parse),
   ("DeliveryReceipt", MessagesDelivered._parse),
   ("ReadReceipt", ThreadsRead._parse_read_receipt),
   ("MarkRead", ThreadsRead._parse),
   ("NewMessage", MessageEvent._parse),
   ("ThreadFolder", ThreadFolder._parse)]

/-- Reduction of monadic bind on a successful `Except` computation. -/
theorem exceptBind_ok {α β : Type} (a : α) (f : α → Except PyError β) :
    (Except.ok a >>= f) = f a := rfl

/-- Reduction of monadic bind on a failed `Except` computation. -/
theorem exceptBind_err {α β : Type} (e : PyError) (f : α → Except PyError β) :
    ((Except.error e : Except PyError α) >>= f) = .error e := rfl

/-- Reduction of `pure` in the `Except` monad. -/
theorem exceptPure {α : Type} (a : α) :
    (pure a : Except PyError α) = .ok a := rfl

/-- Successful `mapExcept` produces one output per input. -/
theorem mapExcept_ok_length {α : Type} (f : JValue → Except PyError α) :
    ∀ (xs : List JValue) (ys : List α), mapExcept f xs = .ok ys → ys.length = xs.length := by
  intro xs
  induction xs with
  | nil =>
    intro ys h
    simp only [mapExcept] at h
    cases h
    rfl
  | cons x xs ih =>
    intro ys h
    cases hf : f x with
    | error e =>
      rw [mapExcept, hf, exceptBind_err] at h
      exact absurd h (by simp)
    | ok y =>
      cases hm : mapExcept f xs with
      | error e =>
        rw [mapExcept, hf, exceptBind_ok, hm, exceptBind_err] at h
        exact absurd h (by simp)
      | ok ys' =>
        rw [mapExcept, hf, exceptBind_ok, hm, exceptBind_ok, exceptPure] at h
        cases h
        simp [ih ys' hm]

/-- Claim C1: for every input mapping whose `class` value is a string not
equal to any of the thirteen explicitly handled tags, `parse_delta`
returns (does not raise) an `UnknownEvent` whose source equals
`"Delta class"` and whose data equals the input mapping unchanged. -/
theorem parse_delta_unrecognized_tag_unknown_event (session : Session)
    (data : JValue) (s : String)
    (hclass : data.getKey "class" = .ok (.str s))
    (hne : s ∉ handledTags) :
    parse_delta session data = .ok (some (.unknownEvent "Delta class" data)) := by
  simp only [handledTags, List.mem_cons, List.not_mem_nil, or_false, not_or] at hne
  obtain ⟨h1, h2, h3, h4, h5, h6, h7, h8, h9, h10, h11, h12, h13⟩ := hne
  unfold parse_delta
  rw [hclass, exceptBind_ok]
  simp [tagEq, h1, h2, h3, h4, h5, h6, h7, h8, h9, h10, h11, h12, h13, exceptPure]

/-- Witness for C1 at the tag `"SomeFutureFeature"`. -/
theorem parse_delta_unrecognized_tag_unknown_event_witness :
    parse_delta { userId := .str "1" } (.obj [("class", .str "SomeFutureFeature")]) =
      .ok (some (.unknownEvent "Delta class"
        (.obj [("class", .str "SomeFutureFeature")]))) :=
  parse_delta_unrecognized_tag_unknown_event _ _ "SomeFutureFeature" rfl (by decide)

/-- Claim C2: a recognized class tag whose kind-specific payload is missing
a required key makes `parse_delta` propagate the structural `KeyError`
uncaught — no branch converts it into `None` or an `UnknownEvent`. The
first conjunct propagates an arbitrary branch error for every
parser-delegating recognized tag; the remaining conjuncts cover every
kind-specific required key read in `_delta_class.py` (`addedParticipants`,
`userFbId`, `leftParticipantFbId`, `folders`, `timestamp`, `name`,
`messageIds`, `deliveredWatermarkTimestampMs`, `actorFbId`,
`actionTimestampMs`, `threadKeys`, `actionTimestamp`, `folder`).
`NoOp` reads no kind-specific payload, `ClientPayload` raises by contract
(claim C3), and the payloads of `AdminTextMessage` are read by
`_delta_type` outside the given sources. -/
theorem parse_delta_missing_required_key_propagates (session : Session) :
    (∀ (data : JValue) (tag : String) (p : Session → JValue → Except PyError Event)
        (e : PyError), (tag, p) ∈ branchParsers →
      data.getKey "class" = .ok (.str tag) →
      p session data = .error e →
      parse_delta session data = .error e) ∧
    (∀ (kvs : List (String × JValue)) (a t : ThreadRef) (ts : DateTime),
      kvs.lookup "class" = some (.str "ParticipantsAddedToGroupThread") →
      ThreadEvent._parse_metadata session (.obj kvs) = .ok (a, t, ts) →
      kvs.lookup "addedParticipants" = none →
      parse_delta session (.obj kvs) = .error (.keyError "addedParticipants")) ∧
    (∀ (kvs : List (String × JValue)) (a t : ThreadRef) (ts : DateTime)
        (xkvs : List (String × JValue)) (rest : List JValue),
      kvs.lookup "class" = some (.str "ParticipantsAddedToGroupThread") →
      ThreadEvent._parse_metadata session (.obj kvs) = .ok (a, t, ts) →
      kvs.lookup "addedParticipants" = some (.list (.obj xkvs :: rest)) →
      xkvs.lookup "userFbId" = none →
      parse_delta session (.obj kvs) = .error (.keyError "userFbId")) ∧
    (∀ (kvs : List (String × JValue)) (a t : ThreadRef) (ts : DateTime),
      kvs.lookup "class" = some (.str "ParticipantLeftGroupThread") →
      ThreadEvent._parse_metadata session (.obj kvs) = .ok (a, t, ts) →
      kvs.lookup "leftParticipantFbId" = none →
      parse_delta session (.obj kvs) = .error (.keyError "leftParticipantFbId")) ∧
    (∀ (kvs : List (String × JValue)),
      kvs.lookup "class" = some (.str "MarkFolderSeen") →
      kvs.lookup "folders" = none →
      parse_delta session (.obj kvs) = .error (.keyError "folders")) ∧
    (∀ (kvs : List (String × JValue)) (fs : List JValue),
      kvs.lookup "class" = some (.str "MarkFolderSeen") →
      kvs.lookup "folders" = some (.list fs) →
      kvs.lookup "timestamp" = none →
      parse_delta session (.obj kvs) = .error (.keyError "timestamp")) ∧
    (∀ (kvs : List (String × JValue)) (a t : ThreadRef) (ts : DateTime),
      kvs.lookup "class" = some (.str "ThreadName") →
      ThreadEvent._parse_metadata session (.obj kvs) = .ok (a, t, ts) →
      kvs.lookup "name" = none →
      parse_delta session (.obj kvs) = .error (.keyError "name")) ∧
    (∀ (kvs : List (String × JValue)) (thr : ThreadRef),
      kvs.lookup "class" = some (.str "DeliveryReceipt") →
      ThreadEvent._get_thread session (.obj kvs) = .ok thr →
      kvs.lookup "actorFbId" = none →
      kvs.lookup "messageIds" = none →
      parse_delta session (.obj kvs) = .error (.keyError "messageIds")) ∧
    (∀ (kvs : List (String × JValue)) (thr : ThreadRef) (mids : List JValue),
      kvs.lookup "class" = some (.str "DeliveryReceipt") →
      ThreadEvent._get_thread session (.obj kvs) = .ok thr →
      kvs.lookup "actorFbId" = none →
      kvs.lookup "messageIds" = some (.list mids) →
      kvs.lookup "deliveredWatermarkTimestampMs" = none →
      parse_delta session (.obj kvs) = .error (.keyError "deliveredWatermarkTimestampMs")) ∧
    (∀ (kvs : List (String × JValue)),
      kvs.lookup "class" = some (.str "ReadReceipt") →
      kvs.lookup "actorFbId" = none →
      parse_delta session (.obj kvs) = .error (.keyError "actorFbId")) ∧
    (∀ (kvs : List (String × JValue)) (aid : JValue) (thr : ThreadRef),
      kvs.lookup "class" = some (.str "ReadReceipt") →
      kvs.lookup "actorFbId" = some aid →
      ThreadEvent._get_thread session (.obj kvs) = .ok thr →
      kvs.lookup "actionTimestampMs" = none →
      parse_delta session (.obj kvs) = .error (.keyError "actionTimestampMs")) ∧
    (∀ (kvs : List (String × JValue)),
      kvs.lookup "class" = some (.str "MarkRead") →
      kvs.lookup "threadKeys" = none →
      parse_delta session (.obj kvs) = .error (.keyError "threadKeys")) ∧
    (∀ (kvs : List (String × JValue)) (ks : List JValue) (thrs : List ThreadRef),
      kvs.lookup "class" = some (.str "MarkRead") →
      kvs.lookup "threadKeys" = some (.list ks) →
      mapExcept (fun x => ThreadEvent._get_thread session (.obj [("threadKey", x)])) ks
        = .ok thrs →
      kvs.lookup "actionTimestamp" = none →
      parse_delta session (.obj kvs) = .error (.keyError "actionTimestamp")) ∧
    (∀ (kvs : List (String × JValue)) (thr : ThreadRef),
      kvs.lookup "class" = some (.str "ThreadFolder") →
      ThreadEvent._get_thread session (.obj kvs) = .ok thr →
      kvs.lookup "folder" = none →
      parse_delta session (.obj kvs) = .error (.keyError "folder")) := by
  constructor
  · intro data tag p e hmem hclass hp
    simp only [branchParsers, List.mem_cons, List.not_mem_nil, or_false,
      Prod.mk.injEq] at hmem
    rcases hmem with h | h | h | h | h | h | h | h | h <;>
      (obtain ⟨rfl, rfl⟩ := h
       unfold parse_delta
       rw [hclass, exceptBind_ok]
       simp [tagEq, hp, exceptBind_err])
  constructor
  · intro kvs a t ts hc hm hk
    unfold parse_delta
    simp [JValue.getKey, hc, exceptBind_ok, tagEq, ParticipantsAdded._parse,
      hm, hk, exceptBind_err]
  constructor
  · intro kvs a t ts xkvs rest hc hm hk hu
    unfold parse_delta
    simp [JValue.getKey, hc, exceptBind_ok, tagEq, ParticipantsAdded._parse,
      hm, hk, hu, JValue.asList, mapExcept, exceptBind_err]
  constructor
  · intro kvs a t ts hc hm hk
    unfold parse_delta
    simp [JValue.getKey, hc, exceptBind_ok, tagEq, ParticipantRemoved._parse,
      hm, hk, exceptBind_err]
  constructor
  · intro kvs hc hk
    unfold parse_delta
    simp [JValue.getKey, hc, exceptBind_ok, tagEq, hk, exceptBind_err]
  constructor
  · intro kvs fs hc hf hk
    unfold parse_delta
    simp [JValue.getKey, hc, exceptBind_ok, tagEq, hf, hk, JValue.asList,
      exceptBind_err]
  constructor
  · intro kvs a t ts hc hm hk
    unfold parse_delta
    simp [JValue.getKey, hc, exceptBind_ok, tagEq, TitleSet._parse, hm, hk,
      exceptBind_err]
  constructor
  · intro kvs thr hc hth hna hk
    unfold parse_delta
    simp [JValue.getKey, hc, exceptBind_ok, tagEq, MessagesDelivered._parse,
      hth, JValue.hasKey, hna, hk, exceptBind_err]
  constructor
  · intro kvs thr mids hc hth hna hm hk
    unfold parse_delta
    simp [JValue.getKey, hc, exceptBind_ok, tagEq, MessagesDelivered._parse,
      hth, JValue.hasKey, hna, hm, hk, JValue.asList, exceptBind_err]
  constructor
  · intro kvs hc hk
    unfold parse_delta
    simp [JValue.getKey, hc, exceptBind_ok, tagEq, ThreadsRead._parse_read_receipt,
      hk, exceptBind_err]
  constructor
  · intro kvs aid thr hc ha hth hk
    unfold parse_delta
    simp [JValue.getKey, hc, exceptBind_ok, tagEq, ThreadsRead._parse_read_receipt,
      ha, hth, hk, exceptBind_err]
  constructor
  · intro kvs hc hk
    unfold parse_delta
    simp [JValue.getKey, hc, exceptBind_ok, tagEq, ThreadsRead._parse, hk,
      exceptBind_err]
  constructor
  · intro kvs ks thrs hc hks hmap hk
    unfold parse_delta
    simp [JValue.getKey, hc, exceptBind_ok, tagEq, ThreadsRead._parse, hks,
      hmap, JValue.asList, hk, exceptBind_err]
  intro kvs thr hc hth hk
  unfold parse_delta
  simp [JValue.getKey, hc, exceptBind_ok, tagEq, ThreadFolder._parse, hth,
    hk, exceptBind_err]

/-- Witness for C2: one concrete payload per conjunct — an arbitrary
branch error propagated through the `ThreadFolder` branch, and each
kind-specific required key missing in turn from an otherwise well-formed
payload of its tag. -/
theorem parse_delta_missing_required_key_propagates_witness :
    parse_delta { userId := .str "1" } (.obj [("class", .str "ThreadFolder")]) =
      .error (.keyError "threadKey") ∧
    parse_delta { userId := .str "1" }
      (.obj [("class", .str "ParticipantsAddedToGroupThread"),
             ("messageMetadata", .obj [("actorFbId", .str "7"),
               ("threadKey", .obj [("threadFbId", .str "g")]), ("timestamp", .num 1)])]) =
      .error (.keyError "addedParticipants") ∧
    parse_delta { userId := .str "1" }
      (.obj [("class", .str "ParticipantsAddedToGroupThread"),
             ("messageMetadata", .obj [("actorFbId", .str "7"),
               ("threadKey", .obj [("threadFbId", .str "g")]), ("timestamp", .num 1)]),
             ("addedParticipants", .list [.obj [("junk", .null)]])]) =
      .error (.keyError "userFbId") ∧
    parse_delta { userId := .str "1" }
      (.obj [("class", .str "ParticipantLeftGroupThread"),
             ("messageMetadata", .obj [("actorFbId", .str "7"),
               ("threadKey", .obj [("threadFbId", .str "g")]), ("timestamp", .num 1)])]) =
      .error (.keyError "leftParticipantFbId") ∧
    parse_delta { userId := .str "1" } (.obj [("class", .str "MarkFolderSeen")]) =
      .error (.keyError "folders") ∧
    parse_delta { userId := .str "1" }
      (.obj [("class", .str "MarkFolderSeen"), ("folders", .list [])]) =
      .error (.keyError "timestamp") ∧
    parse_delta { userId := .str "1" }
      (.obj [("class", .str "ThreadName"),
             ("messageMetadata", .obj [("actorFbId", .str "7"),
               ("threadKey", .obj [("threadFbId", .str "g")]), ("timestamp", .num 1)])]) =
      .error (.keyError "name") ∧
    parse_delta { userId := .str "1" }
      (.obj [("class", .str "DeliveryReceipt"),
             ("threadKey", .obj [("threadFbId", .str "g")])]) =
      .error (.keyError "messageIds") ∧
    parse_delta { userId := .str "1" }
      (.obj [("class", .str "DeliveryReceipt"),
             ("threadKey", .obj [("threadFbId", .str "g")]),
             ("messageIds", .list [])]) =
      .error (.keyError "deliveredWatermarkTimestampMs") ∧
    parse_delta { userId := .str "1" } (.obj [("class", .str "ReadReceipt")]) =
      .error (.keyError "actorFbId") ∧
    parse_delta { userId := .str "1" }
      (.obj [("class", .str "ReadReceipt"), ("actorFbId", .str "5"),
             ("threadKey", .obj [("threadFbId", .str "g")])]) =
      .error (.keyError "actionTimestampMs") ∧
    parse_delta { userId := .str "1" } (.obj [("class", .str "MarkRead")]) =
      .error (.keyError "threadKeys") ∧
    parse_delta { userId := .str "1" }
      (.obj [("class", .str "MarkRead"), ("threadKeys", .list [])]) =
      .error (.keyError "actionTimestamp") ∧
    parse_delta { userId := .str "1" }
      (.obj [("class", .str "ThreadFolder"),
             ("threadKey", .obj [("threadFbId", .str "g")])]) =
      .error (.keyError "folder") := by
  obtain ⟨p1, p2, p3, p4, p5, p6, p7, p8, p9, p10, p11, p12, p13, p14⟩ :=
    parse_delta_missing_required_key_propagates { userId := .str "1" }
  exact ⟨p1 _ "ThreadFolder" ThreadFolder._parse _ (by simp [branchParsers]) rfl rfl,
    p2 _ _ _ _ rfl rfl rfl,
    p3 _ _ _ _ _ _ rfl rfl rfl rfl,
    p4 _ _ _ _ rfl rfl rfl,
    p5 _ rfl rfl,
    p6 _ _ rfl rfl rfl,
    p7 _ _ _ _ rfl rfl rfl,
    p8 _ _ rfl rfl rfl rfl,
    p9 _ _ _ rfl rfl rfl rfl rfl,
    p10 _ rfl rfl,
    p11 _ _ _ rfl rfl rfl rfl,
    p12 _ rfl rfl,
    p13 _ _ _ rfl rfl rfl rfl,
    p14 _ _ rfl rfl rfl⟩

/-- Claim C3: for every input mapping with `data["class"] == "ClientPayload"`,
`parse_delta` raises (a `ValueError`) rather than returning `None` or any
event value. -/
theorem parse_delta_client_payload_raises (session : Session) (data : JValue)
    (hclass : data.getKey "class" = .ok (.str "ClientPayload")) :
    parse_delta session data =
      .error (.valueError "This is implemented in `parse_events`") := by
  unfold parse_delta
  rw [hclass, exceptBind_ok]
  simp [tagEq]

/-- Witness for C3 at a minimal `ClientPayload` mapping. -/
theorem parse_delta_client_payload_raises_witness :
    parse_delta { userId := .str "1" } (.obj [("class", .str "ClientPayload")]) =
      .error (.valueError "This is implemented in `parse_events`") :=
  parse_delta_client_payload_raises _ _ rfl

/-- Claim C4: both `ThreadsRead` entry points normalize to the single
variant — `_parse_read_receipt` yields a `threads` list of length exactly
one with the author built from `data["actorFbId"]`, and the bulk `_parse`
yields one thread per entry of `data["threadKeys"]` in order with the
author equal to the session's own user. -/
theorem threadsRead_entry_points_normalize (session session2 : Session)
    (data data2 : JValue) (aid : JValue) (thr : ThreadRef) (tsv tsv2 : JValue)
    (n n2 : Int) (ks : List JValue) (thrs : List ThreadRef)
    (ha : data.getKey "actorFbId" = .ok aid)
    (hth : ThreadEvent._get_thread session data = .ok thr)
    (hts : data.getKey "actionTimestampMs" = .ok tsv)
    (hn : pyInt tsv = .ok n)
    (hks : data2.getKey "threadKeys" = .ok (.list ks))
    (hmap : mapExcept (fun x => ThreadEvent._get_thread session2 (.obj [("threadKey", x)])) ks
      = .ok thrs)
    (hts2 : data2.getKey "actionTimestamp" = .ok tsv2)
    (hn2 : pyInt tsv2 = .ok n2) :
    ThreadsRead._parse_read_receipt session data =
      .ok (.threadsRead { session := session, kind := .user, id := aid } [thr]
        (millis_to_datetime n)) ∧
    ThreadsRead._parse session2 data2 =
      .ok (.threadsRead session2.user thrs (millis_to_datetime n2)) ∧
    thrs.length = ks.length := by
  refine ⟨?_, ?_, mapExcept_ok_length _ ks thrs hmap⟩
  · unfold ThreadsRead._parse_read_receipt
    rw [ha, exceptBind_ok, hth, exceptBind_ok, hts, exceptBind_ok, hn, exceptBind_ok]
    rfl
  · unfold ThreadsRead._parse
    rw [hks, exceptBind_ok]
    simp only [JValue.asList, exceptBind_ok]
    rw [hmap, exceptBind_ok, hts2, exceptBind_ok, hn2, exceptBind_ok]
    rfl

/-- Witness for C4: a single read receipt and a bulk mark-read over two
thread keys (one group, one one-to-one key). -/
theorem threadsRead_entry_points_normalize_witness :
    ThreadsRead._parse_read_receipt { userId := .str "9" }
      (.obj [("actorFbId", .str "5"),
             ("threadKey", .obj [("threadFbId", .str "g")]),
             ("actionTimestampMs", .num 1000)]) =
      .ok (.threadsRead
        { session := { userId := .str "9" }, kind := .user, id := .str "5" }
        [{ session := { userId := .str "9" }, kind := .group, id := .str "g" }]
        (millis_to_datetime 1000)) ∧
    ThreadsRead._parse { userId := .str "9" }
      (.obj [("threadKeys", .list [.obj [("threadFbId", .str "a")],
                                   .obj [("otherUserFbId", .str "b")]]),
             ("actionTimestamp", .num 2000)]) =
      .ok (.threadsRead (Session.user { userId := .str "9" })
        [{ session := { userId := .str "9" }, kind := .group, id := .str "a" },
         { session := { userId := .str "9" }, kind := .user, id := .str "b" }]
        (millis_to_datetime 2000)) ∧
    ([{ session := { userId := .str "9" }, kind := ThreadKind.group, id := JValue.str "a" },
      { session := { userId := .str "9" }, kind := ThreadKind.user, id := JValue.str "b" }] :
        List ThreadRef).length =
      ([JValue.obj [("threadFbId", .str "a")],
        JValue.obj [("otherUserFbId", .str "b")]]).length :=
  threadsRead_entry_points_normalize _ _ _ _ _ _ _ _ _ _ _ _
    rfl rfl rfl rfl rfl rfl rfl rfl

/-- Claim C5: `TitleSet` normalizes an empty-string title to absent —
`_parse` on `data["name"]` and `_from_fetch` on `data["thread_name"]`
yield `title = none` for the empty string and `title = some` of the
string for a non-empty one. -/
theorem titleSet_empty_title_normalized (session : Session) (thread : ThreadRef)
    (d1 d2 d3 d4 : JValue) (a1 t1 a2 t2 af1 af2 : ThreadRef)
    (ts1 ts2 tf1 tf2 : DateTime) (s sF : String)
    (hm1 : ThreadEvent._parse_metadata session d1 = .ok (a1, t1, ts1))
    (hn1 : d1.getKey "name" = .ok (.str ""))
    (hm2 : ThreadEvent._parse_metadata session d2 = .ok (a2, t2, ts2))
    (hn2 : d2.getKey "name" = .ok (.str s)) (hs : s ≠ "")
    (hf1 : ThreadEvent._parse_fetch thread.session d3 = .ok (af1, tf1))
    (htn1 : d3.getKey "thread_name" = .ok (.str ""))
    (hf2 : ThreadEvent._parse_fetch thread.session d4 = .ok (af2, tf2))
    (htn2 : d4.getKey "thread_name" = .ok (.str sF)) (hsF : sF ≠ "") :
    TitleSet._parse session d1 = .ok (.titleSet a1 t1 none (some ts1)) ∧
    TitleSet._parse session d2 = .ok (.titleSet a2 t2 (some (.str s)) (some ts2)) ∧
    TitleSet._from_fetch thread d3 = .ok (.titleSet af1 thread none (some tf1)) ∧
    TitleSet._from_fetch thread d4 =
      .ok (.titleSet af2 thread (some (.str sF)) (some tf2)) := by
  refine ⟨?_, ?_, ?_, ?_⟩
  · simp [TitleSet._parse, hm1, hn1, exceptBind_ok, exceptPure, JValue.truthy]
  · simp [TitleSet._parse, hm2, hn2, exceptBind_ok, exceptPure, JValue.truthy, hs]
  · simp [TitleSet._from_fetch, hf1, htn1, exceptBind_ok, exceptPure, JValue.truthy]
  · simp [TitleSet._from_fetch, hf2, htn2, exceptBind_ok, exceptPure, JValue.truthy, hsF]

/-- Witness for C5 with title `""` versus `"X"` on both entry points. -/
theorem titleSet_empty_title_normalized_witness :
    TitleSet._parse { userId := .str "1" }
      (.obj [("messageMetadata", .obj [("actorFbId", .str "7"),
               ("threadKey", .obj [("threadFbId", .str "g1")]), ("timestamp", .num 1000)]),
             ("name", .str "")]) =
      .ok (.titleSet
        { session := { userId := .str "1" }, kind := .user, id := .str "7" }
        { session := { userId := .str "1" }, kind := .group, id := .str "g1" }
        none (some (millis_to_datetime 1000))) ∧
    TitleSet._parse { userId := .str "1" }
      (.obj [("messageMetadata", .obj [("actorFbId", .str "7"),
               ("threadKey", .obj [("threadFbId", .str "g1")]), ("timestamp", .num 1000)]),
             ("name", .str "X")]) =
      .ok (.titleSet
        { session := { userId := .str "1" }, kind := .user, id := .str "7" }
        { session := { userId := .str "1" }, kind := .group, id := .str "g1" }
        (some (.str "X")) (some (millis_to_datetime 1000))) ∧
    TitleSet._from_fetch
      { session := { userId := .str "1" }, kind := .group, id := .str "g1" }
      (.obj [("message_sender", .obj [("id", .str "7")]),
             ("timestamp_precise", .num 2000), ("thread_name", .str "")]) =
      .ok (.titleSet
        { session := { userId := .str "1" }, kind := .user, id := .str "7" }
        { session := { userId := .str "1" }, kind := .group, id := .str "g1" }
        none (some (millis_to_datetime 2000))) ∧
    TitleSet._from_fetch
      { session := { userId := .str "1" }, kind := .group, id := .str "g1" }
      (.obj [("message_sender", .obj [("id", .str "7")]),
             ("timestamp_precise", .num 2000), ("thread_name", .str "X")]) =
      .ok (.titleSet
        { session := { userId := .str "1" }, kind := .user, id := .str "7" }
        { session := { userId := .str "1" }, kind := .group, id := .str "g1" }
        (some (.str "X")) (some (millis_to_datetime 2000))) :=
  titleSet_empty_title_normalized _ _ _ _ _ _ _ _ _ _ _ _ _ _ _ _ "X" "X"
    rfl rfl rfl rfl (by decide) rfl rfl rfl rfl (by decide)

/-- Claim C6: `MessagesDelivered._parse` sets the author equal to the
resolved thread itself when `actorFbId` is absent from the mapping, and
to a user reference built from that id when it is present. -/
theorem messagesDelivered_author_fallback (session session2 : Session)
    (kvs1 kvs2 : List (String × JValue)) (thr thr2 : ThreadRef) (aid : JValue)
    (mids mids2 : List JValue) (tsv tsv2 : JValue) (n n2 : Int)
    (hth : ThreadEvent._get_thread session (.obj kvs1) = .ok thr)
    (hnoactor : kvs1.lookup "actorFbId" = none)
    (hmids : kvs1.lookup "messageIds" = some (.list mids))
    (hts : kvs1.lookup "deliveredWatermarkTimestampMs" = some tsv)
    (hn : pyInt tsv = .ok n)
    (hth2 : ThreadEvent._get_thread session2 (.obj kvs2) = .ok thr2)
    (hactor : kvs2.lookup "actorFbId" = some aid)
    (hmids2 : kvs2.lookup "messageIds" = some (.list mids2))
    (hts2 : kvs2.lookup "deliveredWatermarkTimestampMs" = some tsv2)
    (hn2 : pyInt tsv2 = .ok n2) :
    MessagesDelivered._parse session (.obj kvs1) =
      .ok (.messagesDelivered thr thr
        (mids.map fun x => { thread := thr, id := x }) (millis_to_datetime n)) ∧
    MessagesDelivered._parse session2 (.obj kvs2) =
      .ok (.messagesDelivered { session := session2, kind := .user, id := aid } thr2
        (mids2.map fun x => { thread := thr2, id := x }) (millis_to_datetime n2)) := by
  constructor
  · unfold MessagesDelivered._parse
    rw [hth, exceptBind_ok]
    simp [JValue.hasKey, hnoactor, JValue.getKey, hmids, hts, hn,
      exceptBind_ok, exceptPure, JValue.asList]
  · unfold MessagesDelivered._parse
    rw [hth2, exceptBind_ok]
    simp [JValue.hasKey, hactor, JValue.getKey, hmids2, hts2, hn2,
      exceptBind_ok, exceptPure, JValue.asList]

/-- Witness for C6: the same group thread with and without `actorFbId`. -/
theorem messagesDelivered_author_fallback_witness :
    MessagesDelivered._parse { userId := .str "1" }
      (.obj [("threadKey", .obj [("threadFbId", .str "g")]),
             ("messageIds", .list [.str "m1", .str "m2"]),
             ("deliveredWatermarkTimestampMs", .num 5)]) =
      .ok (.messagesDelivered
        { session := { userId := .str "1" }, kind := .group, id := .str "g" }
        { session := { userId := .str "1" }, kind := .group, id := .str "g" }
        (([.str "m1", .str "m2"] : List JValue).map fun x =>
          { thread := { session := { userId := .str "1" }, kind := .group, id := .str "g" },
            id := x })
        (millis_to_datetime 5)) ∧
    MessagesDelivered._parse { userId := .str "1" }
      (.obj [("threadKey", .obj [("threadFbId", .str "g")]),
             ("actorFbId", .str "5"),
             ("messageIds", .list [.str "m1"]),
             ("deliveredWatermarkTimestampMs", .num 6)]) =
      .ok (.messagesDelivered
        { session := { userId := .str "1" }, kind := .user, id := .str "5" }
        { session := { userId := .str "1" }, kind := .group, id := .str "g" }
        (([.str "m1"] : List JValue).map fun x =>
          { thread := { session := { userId := .str "1" }, kind := .group, id := .str "g" },
            id := x })
        (millis_to_datetime 6)) :=
  messagesDelivered_author_fallback _ _ _ _ _ _ _ _ _ _ _ _ _
    rfl rfl rfl rfl rfl rfl rfl rfl rfl rfl

/-- Claim C7: the local-echo constructors `ParticipantsAdded._from_send`
and `ParticipantRemoved._from_send` always set the author to the
session's own user (`thread.session.user`) and leave the timestamp
absent (`none`). -/
theorem from_send_author_session_user_at_none (thread : ThreadRef)
    (added_ids : List JValue) (removed_id : JValue) :
    (ParticipantsAdded._from_send thread added_ids).author? = some thread.session.user ∧
    (ParticipantsAdded._from_send thread added_ids).at? = none ∧
    (ParticipantRemoved._from_send thread removed_id).author? = some thread.session.user ∧
    (ParticipantRemoved._from_send thread removed_id).at? = none :=
  ⟨rfl, rfl, rfl, rfl⟩

/-- Claim C8: `parse_delta` returns `None` for `MarkFolderSeen` (after
parsing the folders list and the timestamp, then discarding both) and
for `NoOp`. -/
theorem parse_delta_markfolderseen_noop_return_none (session session2 : Session)
    (data data2 : JValue) (fs : List JValue) (tsv : JValue) (n : Int)
    (hc1 : data.getKey "class" = .ok (.str "MarkFolderSeen"))
    (hfolders : data.getKey "folders" = .ok (.list fs))
    (hts : data.getKey "timestamp" = .ok tsv)
    (hn : pyInt tsv = .ok n)
    (hc2 : data2.getKey "class" = .ok (.str "NoOp")) :
    parse_delta session data = .ok none ∧ parse_delta session2 data2 = .ok none := by
  constructor
  · unfold parse_delta
    rw [hc1, exceptBind_ok]
    simp [tagEq, hfolders, JValue.asList, hts, hn, exceptBind_ok, exceptPure]
  · unfold parse_delta
    rw [hc2, exceptBind_ok]
    simp [tagEq, exceptPure]

/-- Witness for C8 at minimal `MarkFolderSeen` and `NoOp` payloads. -/
theorem parse_delta_markfolderseen_noop_return_none_witness :
    parse_delta { userId := .str "1" }
      (.obj [("class", .str "MarkFolderSeen"), ("folders", .list [.null]),
             ("timestamp", .num 3)]) = .ok none ∧
    parse_delta { userId := .str "1" } (.obj [("class", .str "NoOp")]) = .ok none :=
  parse_delta_markfolderseen_noop_return_none _ _ _ _ _ _ _ rfl rfl rfl rfl rfl

/-- Claim C9: for every input mapping lacking the `class` key entirely,
`parse_delta` raises a `KeyError` before any dispatch, rather than
returning `None` or an `UnknownEvent`. -/
theorem parse_delta_missing_class_key_raises (session : Session)
    (kvs : List (String × JValue))
    (h : kvs.lookup "class" = none) :
    parse_delta session (.obj kvs) = .error (.keyError "class") := by
  unfold parse_delta
  simp [JValue.getKey, h, exceptBind_err]

/-- Witness for C9 at a mapping with no `class` key. -/
theorem parse_delta_missing_class_key_raises_witness :
    parse_delta { userId := .str "1" } (.obj [("x", .null)]) =
      .error (.keyError "class") :=
  parse_delta_missing_class_key_raises _ _ rfl

/-- Claim C10: `ParticipantRemoved._from_fetch` uses exactly the first
element of `data["participants_removed"]` — the removed user reference is
built from that element's `id`, further elements do not affect the
result, and an empty sequence makes the call raise an `IndexError`. -/
theorem participantRemoved_from_fetch_first_only (thread thread2 : ThreadRef)
    (d d2 : JValue) (a a2 : ThreadRef) (ts ts2 : DateTime) (x : JValue)
    (rest : List JValue) (i : JValue)
    (hfetch : ThreadEvent._parse_fetch thread.session d = .ok (a, ts))
    (hpr : d.getKey "participants_removed" = .ok (.list (x :: rest)))
    (hid : x.getKey "id" = .ok i)
    (hfetch2 : ThreadEvent._parse_fetch thread2.session d2 = .ok (a2, ts2))
    (hpr2 : d2.getKey "participants_removed" = .ok (.list [])) :
    ParticipantRemoved._from_fetch thread d =
      .ok (.participantRemoved a thread
        { session := thread.session, kind := .user, id := i } (some ts)) ∧
    ParticipantRemoved._from_fetch thread2 d2 = .error .indexError := by
  constructor
  · simp [ParticipantRemoved._from_fetch, hfetch, hpr, hid, exceptBind_ok, exceptPure,
      JValue.asList, pyIndex]
  · simp [ParticipantRemoved._from_fetch, hfetch2, hpr2, exceptBind_ok, exceptBind_err,
      JValue.asList, pyIndex]

/-- Witness for C10: a two-element removal list (only the first element
used) and an empty removal list. -/
theorem participantRemoved_from_fetch_first_only_witness :
    ParticipantRemoved._from_fetch
      { session := { userId := .str "1" }, kind := .group, id := .str "g" }
      (.obj [("message_sender", .obj [("id", .str "7")]),
             ("timestamp_precise", .num 4),
             ("participants_removed", .list [.obj [("id", .str "42")],
                                             .obj [("id", .str "43")]])]) =
      .ok (.participantRemoved
        { session := { userId := .str "1" }, kind := .user, id := .str "7" }
        { session := { userId := .str "1" }, kind := .group, id := .str "g" }
        { session := { userId := .str "1" }, kind := .user, id := .str "42" }
        (some (millis_to_datetime 4))) ∧
    ParticipantRemoved._from_fetch
      { session := { userId := .str "1" }, kind := .group, id := .str "g" }
      (.obj [("message_sender", .obj [("id", .str "7")]),
             ("timestamp_precise", .num 4),
             ("participants_removed", .list [])]) = .error .indexError :=
  participantRemoved_from_fetch_first_only _ _ _ _ _ _ _ _ _ _ _
    rfl rfl rfl rfl rfl
